import Mathlib

/-!
Verification of the Herald signal delivery engine against its source.

The definitions below are shallow embeddings of the Rust source:
  crates/worker/src/jobs/delivery.rs   (retry policy, lane choice, failure handling)
  crates/core/src/auth.rs              (HMAC signing and verification)
  crates/core/src/tunnel.rs            (agent registry and connections)
  crates/api/src/tunnel/server.rs      (session teardown)
  crates/db/src/queries/signals.rs     (counter updates)
  crates/db/src/queries/webhooks.rs    (failure and success updates)
  crates/db/src/queries/subscriptions.rs (active subscription enumeration)
Rust byte strings are List Nat (each entry a byte), machine integers are
Int or Nat with explicit reductions where overflow matters.
-/

namespace Herald

/-- Signal urgency enum, db/models.rs and core/types.rs. -/
inductive SignalUrgency
  | low
  | normal
  | high
  | critical
deriving DecidableEq, Repr

/-- Retry backoff, worker/src/jobs/delivery.rs lines 21 to 30.
The Rust match on a u32 attempt number, result in seconds. -/
def retry_policy : Nat → Nat
  | 0 => 0
  | 1 => 60
  | 2 => 300
  | 3 => 1800
  | 4 => 7200
  | _ => 21600

/-- Priority lane from urgency, the match repeated at delivery.rs lines
234 to 237 and 373 to 376. -/
def queueForUrgency : SignalUrgency → String
  | .high => "delivery-high"
  | .critical => "delivery-high"
  | _ => "delivery-normal"

/-- The delivery counters of a signal row. db/queries/signals.rs: a signal
is created with the counts initialized to zero. -/
structure SignalCounts where
  delivered_count : Int
  failed_count : Int
  delivery_count : Int
deriving DecidableEq, Repr

/-- db/queries/signals.rs lines 122 to 145: atomic relative-delta update
of the three counters. -/
def increment_delivery_counts (c : SignalCounts) (delivered_delta failed_delta total_delta : Int) :
    SignalCounts :=
  { delivered_count := c.delivered_count + delivered_delta
    failed_count := c.failed_count + failed_delta
    delivery_count := c.delivery_count + total_delta }

/-- The counters a freshly created signal carries, signals.rs insert. -/
def zeroCounts : SignalCounts := ⟨0, 0, 0⟩

/-- The four completed-attempt outcomes of the delivery worker. -/
inductive AttemptOutcome
  | webhookSuccess
  | webhookFailure
  | tunnelSuccess
  | tunnelFailure
deriving DecidableEq, Repr

/-- The counter deltas each completed attempt applies, read off the four
call sites of increment_delivery_counts in worker/src/jobs/delivery.rs:
line 145 (webhook success), line 209 (webhook failure, inside
handle_webhook_failure), line 319 (tunnel success), line 345 (tunnel
failure, inside handle_tunnel_failure). -/
def applyCompletedAttempt (c : SignalCounts) : AttemptOutcome → SignalCounts
  | .webhookSuccess => increment_delivery_counts c 1 0 1
  | .webhookFailure => increment_delivery_counts c 0 1 1
  | .tunnelSuccess => increment_delivery_counts c 1 0 1
  | .tunnelFailure => increment_delivery_counts c 0 1 1

/-- The invariant claimed for signal counters. -/
def counterInvariant (c : SignalCounts) : Prop :=
  c.delivery_count = c.delivered_count + c.failed_count

/-- A webhook row's failure bookkeeping fields, db/models.rs. -/
structure Webhook where
  failure_count : Int
  last_success_at : Option Int
  last_failure_at : Option Int
deriving DecidableEq, Repr

/-- db/queries/webhooks.rs lines 105 to 124: increment failure_count,
set last_failure_at. -/
def update_failure (w : Webhook) (t : Int) : Webhook :=
  { w with failure_count := w.failure_count + 1, last_failure_at := some t }

/-- db/queries/webhooks.rs lines 126 to 145: reset failure_count to zero,
set last_success_at. -/
def update_success (w : Webhook) (t : Int) : Webhook :=
  { w with failure_count := 0, last_success_at := some t }

/-- k consecutive update_failure calls at time t. -/
def iterate_failures (w : Webhook) (t : Int) : Nat → Webhook
  | 0 => w
  | k + 1 => update_failure (iterate_failures w t k) t

/-- core/src/tunnel.rs lines 47 to 53: a registered agent connection. The
bounded mpsc sender is modelled by an opaque handle number. -/
structure AgentConnection where
  connection_id : String
  subscriber_id : String
  sender : Nat
  connected_at : Int
deriving DecidableEq, Repr

/-- core/src/tunnel.rs lines 55 to 58: the process-wide map from
subscriber id to connection, modelled as a finite map by function. -/
def AgentRegistry : Type := String → Option AgentConnection

namespace AgentRegistry

/-- core/src/tunnel.rs lines 61 to 63: the empty registry. -/
def new : AgentRegistry := fun _ => none

/-- core/src/tunnel.rs lines 65 to 71: HashMap insert keyed by the
connection's subscriber_id; a prior entry for the key is replaced. -/
def register (r : AgentRegistry) (conn : AgentConnection) : AgentRegistry :=
  fun k => if k = conn.subscriber_id then some conn else r k

/-- core/src/tunnel.rs lines 73 to 75: HashMap remove by subscriber id. -/
def unregister (r : AgentRegistry) (subscriber_id : String) : AgentRegistry :=
  fun k => if k = subscriber_id then none else r k

/-- core/src/tunnel.rs lines 77 to 79: lookup by subscriber id. -/
def get (r : AgentRegistry) (subscriber_id : String) : Option AgentConnection :=
  r subscriber_id

end AgentRegistry

/-- api/src/tunnel/server.rs line 144: on session teardown the handler
calls unregister with its own subscriber_id only; the registry entry is
not compared against the session's connection_id. -/
def handle_socket_teardown (r : AgentRegistry) (session_subscriber_id : String) : AgentRegistry :=
  AgentRegistry.unregister r session_subscriber_id

/-- State of a bounded tokio mpsc channel as seen by one send. -/
inductive ChannelState
  | hasCapacity
  | full
  | closed
deriving DecidableEq, Repr

/-- Which send entry point the caller uses on the sender half. -/
inductive SendCall
  | sendAwait
  | trySend
deriving DecidableEq, Repr

/-- What the calling task observes. -/
inductive SendOutcome
  | delivered
  | immediateError
  | blocksUntilCapacity
deriving DecidableEq, Repr

/-- Semantics of tokio mpsc bounded-channel sends: Sender::send(..).await
suspends the caller while the channel is full and the receiver is alive,
and fails only once the receiver is dropped; Sender::try_send returns an
immediate error on a full channel. -/
def mpscSend : SendCall → ChannelState → SendOutcome
  | _, .hasCapacity => .delivered
  | .sendAwait, .full => .blocksUntilCapacity
  | .trySend, .full => .immediateError
  | _, .closed => .immediateError

/-- worker/src/jobs/delivery.rs line 294: the worker pushes the Signal
message with agent.sender.send(message).await, the awaiting send. -/
def deliver_via_tunnel_send_call : SendCall := .sendAwait

/-- The outcome the delivery worker observes for a given channel state. -/
def deliver_via_tunnel_send (s : ChannelState) : SendOutcome :=
  mpscSend deliver_via_tunnel_send_call s

/-- api/src/tunnel/server.rs line 33: the outbound channel is bounded at
capacity 64. -/
def tunnel_channel_capacity : Nat := 64

/-- Subscription status enum, db/models.rs. -/
inductive SubscriptionStatus
  | active
  | paused
  | canceled
deriving DecidableEq, Repr

/-- A subscription row, db/models.rs (the fields the delivery engine
reads). -/
structure Subscription where
  id : String
  subscriber_id : String
  channel_id : String
  webhook_id : Option String
  status : SubscriptionStatus
deriving DecidableEq, Repr

/-- db/queries/subscriptions.rs lines 59 to 74: all rows of the channel
whose status is active. -/
def list_active_by_channel (table : List Subscription) (channel_id : String) :
    List Subscription :=
  table.filter (fun s => s.channel_id == channel_id && s.status == SubscriptionStatus.active)

/-- core/src/types.rs lines 281 to 287: the queue payload. -/
structure DeliveryJob where
  signal_id : String
  subscription_id : String
  webhook_id : Option String
  attempt : Int
deriving DecidableEq, Repr

/-- The jobs a publish call places on its priority lane. -/
structure FanOut where
  lane : String
  jobs : List DeliveryJob
deriving DecidableEq, Repr

/-- Modelled from the spec: the publish-path fan-out, spec section 4.E
steps 3 to 5. The publish route among the provided sources
(api/src/routes/signals.rs push_signal) persists the signal only; the
second publish path the spec mentions, which enumerates active
subscriptions and enqueues one DeliveryJob with attempt 0 and the
subscription webhook_id per subscription on the lane chosen from the
signal urgency, is not among the provided source files. Its callee
list_active_by_channel and the lane match are embedded from the
sources. -/
def publish_fan_out (signal_id : String) (urgency : SignalUrgency)
    (subs : List Subscription) : FanOut :=
  { lane := queueForUrgency urgency
    jobs := subs.map (fun sub =>
      { signal_id := signal_id
        subscription_id := sub.id
        webhook_id := sub.webhook_id
        attempt := 0 }) }

/-- One record of the error_history array built by the failure handlers
in worker/src/jobs/delivery.rs (lines 213 to 219 and 352 to 358). -/
structure ErrorRecord where
  attempt : Int
  error : String
  statusCode : Option Int
deriving DecidableEq, Repr

/-- A row created by dead_letter_queue::create,
db/queries/dead_letter_queue.rs lines 4 to 30. The JSON payload is kept
opaque. -/
structure DlqEntry where
  delivery_id : String
  signal_id : String
  subscription_id : String
  payload : String
  error_history : List ErrorRecord
deriving DecidableEq, Repr

/-- A delayed enqueue spawned by a failure handler: lane, job and the
sleep in seconds before the push. -/
structure ScheduledJob where
  lane : String
  job : DeliveryJob
  delay_secs : Nat
deriving DecidableEq, Repr

/-- The externally visible effects of one failure-handler run. -/
structure FailureEffects where
  deliveryMarkedFailed : Bool
  countsDelta : Int × Int × Int
  webhookFailureBumped : Bool
  dlq : List DlqEntry
  requeue : List ScheduledJob
deriving DecidableEq, Repr

/-- worker/src/jobs/delivery.rs lines 187 to 254 (handle_webhook_failure):
mark the delivery failed, bump the failed and total signal counters,
bump the webhook failure count; then either create one DLQ entry with a
single-element error_history (attempt at least 5) or schedule one requeue
with attempt + 1 on the lane from the signal urgency, delayed by
retry_policy(attempt + 1). -/
def handle_webhook_failure (signal_id : String) (urgency : SignalUrgency)
    (subscription_id webhook_id payload delivery_id : String) (attempt : Int)
    (status_code : Option Int) (error_message : String) : FailureEffects :=
  let base : FailureEffects :=
    { deliveryMarkedFailed := true
      countsDelta := (0, 1, 1)
      webhookFailureBumped := true
      dlq := []
      requeue := [] }
  if attempt ≥ 5 then
    { base with
        dlq := [{ delivery_id := delivery_id
                  signal_id := signal_id
                  subscription_id := subscription_id
                  payload := payload
                  error_history := [⟨attempt, error_message, status_code⟩] }] }
  else
    { base with
        requeue := [{ lane := queueForUrgency urgency
                      job := { signal_id := signal_id
                               subscription_id := subscription_id
                               webhook_id := some webhook_id
                               attempt := attempt + 1 }
                      delay_secs := retry_policy (attempt + 1).toNat }] }

/-- worker/src/jobs/delivery.rs lines 325 to 393 (handle_tunnel_failure):
mark the delivery failed and bump the failed and total counters; when
allow_retry is false return at once (before the DLQ check); otherwise
either create one DLQ entry (attempt at least 5, statusCode null) or
schedule one requeue carrying the subscription webhook_id. -/
def handle_tunnel_failure (signal_id : String) (urgency : SignalUrgency)
    (subscription_id : String) (sub_webhook_id : Option String)
    (payload delivery_id : String) (attempt : Int) (error_message : String)
    (allow_retry : Bool) : FailureEffects :=
  let base : FailureEffects :=
    { deliveryMarkedFailed := true
      countsDelta := (0, 1, 1)
      webhookFailureBumped := false
      dlq := []
      requeue := [] }
  if !allow_retry then
    base
  else if attempt ≥ 5 then
    { base with
        dlq := [{ delivery_id := delivery_id
                  signal_id := signal_id
                  subscription_id := subscription_id
                  payload := payload
                  error_history := [⟨attempt, error_message, none⟩] }] }
  else
    { base with
        requeue := [{ lane := queueForUrgency urgency
                      job := { signal_id := signal_id
                               subscription_id := subscription_id
                               webhook_id := sub_webhook_id
                               attempt := attempt + 1 }
                      delay_secs := retry_policy (attempt + 1).toNat }] }

/-- worker/src/jobs/delivery.rs line 51: the tunnel path may schedule
retries only when the subscription has no webhook_id. -/
def allow_retry_of (webhook_id : Option String) : Bool :=
  webhook_id.isNone

/-- Truncation to a 32-bit word. -/
def w32 (n : Nat) : Nat := n % 4294967296

/-- 32-bit rotate right. -/
def rotr (n x : Nat) : Nat := ((x >>> n) ||| (x <<< (32 - n))) % 4294967296

/-- 32-bit complement. -/
def not32 (x : Nat) : Nat := x ^^^ 4294967295

/-- SHA-256 choose function. -/
def chFn (x y z : Nat) : Nat := (x &&& y) ^^^ (not32 x &&& z)

/-- SHA-256 majority function. -/
def majFn (x y z : Nat) : Nat := (x &&& y) ^^^ (x &&& z) ^^^ (y &&& z)

/-- SHA-256 big sigma 0. -/
def bsig0 (x : Nat) : Nat := rotr 2 x ^^^ rotr 13 x ^^^ rotr 22 x

/-- SHA-256 big sigma 1. -/
def bsig1 (x : Nat) : Nat := rotr 6 x ^^^ rotr 11 x ^^^ rotr 25 x

/-- SHA-256 small sigma 0. -/
def ssig0 (x : Nat) : Nat := rotr 7 x ^^^ rotr 18 x ^^^ (x >>> 3)

/-- SHA-256 small sigma 1. -/
def ssig1 (x : Nat) : Nat := rotr 17 x ^^^ rotr 19 x ^^^ (x >>> 10)

/-- The 64 SHA-256 round constants, FIPS 180-4, in decimal. -/
def sha256K : List Nat :=
  [1116352408, 1899447441, 3049323471, 3921009573, 961987163, 1508970993,
   2453635748, 2870763221, 3624381080, 310598401, 607225278, 1426881987,
   1925078388, 2162078206, 2614888103, 3248222580, 3835390401, 4022224774,
   264347078, 604807628, 770255983, 1249150122, 1555081692, 1996064986,
   2554220882, 2821834349, 2952996808, 3210313671, 3336571891, 3584528711,
   113926993, 338241895, 666307205, 773529912, 1294757372, 1396182291,
   1695183700, 1986661051, 2177026350, 2456956037, 2730485921, 2820302411,
   3259730800, 3345764771, 3516065817, 3600352804, 4094571909, 275423344,
   430227734, 506948616, 659060556, 883997877, 958139571, 1322822218,
   1537002063, 1747873779, 1955562222, 2024104815, 2227730452, 2361852424,
   2428436474, 2756734187, 3204031479, 3329325298]

/-- The SHA-256 initial hash state, FIPS 180-4, in decimal. -/
def sha256H0 : List Nat :=
  [1779033703, 3144134277, 1013904242, 2773480762,
   1359893119, 2600822924, 528734635, 1541459225]

/-- n rendered as k big-endian bytes. -/
def beBytes (k n : Nat) : List Nat :=
  (List.range k).map (fun i => (n >>> (8 * (k - 1 - i))) % 256)

/-- SHA-256 padding: a 0x80 byte, zeros to 56 mod 64, the bit length as
8 big-endian bytes. -/
def padMessage (msg : List Nat) : List Nat :=
  let padZeros := (119 - msg.length % 64) % 64
  msg ++ 0x80 :: (List.replicate padZeros 0 ++ beBytes 8 (8 * msg.length))

/-- The i-th big-endian 32-bit word of a byte block. -/
def wordAt (b : List Nat) (i : Nat) : Nat :=
  (b.getD (4 * i) 0) <<< 24 ||| (b.getD (4 * i + 1) 0) <<< 16 |||
    (b.getD (4 * i + 2) 0) <<< 8 ||| b.getD (4 * i + 3) 0

/-- The 16 words of a 64-byte block. -/
def blockWords (b : List Nat) : List Nat := (List.range 16).map (wordAt b)

/-- The SHA-256 message schedule: the 16 block words extended to 64. -/
def msgSchedule (ws : List Nat) : List Nat :=
  (List.range 48).foldl (fun acc t =>
    acc ++ [w32 (ssig1 (acc.getD (t + 14) 0) + acc.getD (t + 9) 0 +
      ssig0 (acc.getD (t + 1) 0) + acc.getD t 0)]) ws

/-- One SHA-256 compression round on the eight-word working state. -/
def compressStep (st : List Nat) (kw : Nat × Nat) : List Nat :=
  let a := st.getD 0 0
  let b := st.getD 1 0
  let c := st.getD 2 0
  let d := st.getD 3 0
  let e := st.getD 4 0
  let f := st.getD 5 0
  let g := st.getD 6 0
  let h := st.getD 7 0
  let t1 := w32 (h + bsig1 e + chFn e f g + kw.1 + kw.2)
  let t2 := w32 (bsig0 a + majFn a b c)
  [w32 (t1 + t2), a, b, c, w32 (d + t1), e, f, g]

/-- SHA-256 compression of one 64-byte block into the hash state. -/
def compressBlock (hs : List Nat) (block : List Nat) : List Nat :=
  let ws := msgSchedule (blockWords block)
  let st := (sha256K.zip ws).foldl compressStep hs
  (hs.zip st).map (fun p => w32 (p.1 + p.2))

/-- SHA-256 of a byte string, FIPS 180-4; the digest as 32 bytes. This
embeds the sha2 crate the source calls in core/src/auth.rs. Checked
against the FIPS and RFC 4231 test vectors. -/
def sha256 (msg : List Nat) : List Nat :=
  let padded := padMessage msg
  let blocks := (List.range (padded.length / 64)).map (fun i => (padded.drop (64 * i)).take 64)
  (blocks.foldl compressBlock sha256H0).foldr (fun w acc => beBytes 4 w ++ acc) []

/-- HMAC-SHA256, RFC 2104: keys longer than the 64-byte block are hashed,
shorter keys zero-padded. This embeds the hmac crate the source calls;
any key length is accepted, matching Hmac::new_from_slice. -/
def hmacSha256 (key msg : List Nat) : List Nat :=
  let k0 := if 64 < key.length then sha256 key else key
  let kb := k0 ++ List.replicate (64 - k0.length) 0
  let ipad := kb.map (fun b => b ^^^ 0x36)
  let opad := kb.map (fun b => b ^^^ 0x5c)
  sha256 (opad ++ sha256 (ipad ++ msg))

/-- The UTF-8 bytes of an ASCII string. -/
def strBytes (s : String) : List Nat := s.toList.map Char.toNat

/-- Lowercase hex digit of a value below 16, as a byte. -/
def hexDigitByte (n : Nat) : Nat := if n < 10 then 48 + n else 87 + n

/-- Lowercase hex encoding of a byte string, two digits per byte. -/
def hexBytes (l : List Nat) : List Nat :=
  l.foldr (fun b acc => hexDigitByte (b / 16) :: hexDigitByte (b % 16) :: acc) []

/-- core/src/auth.rs lines 25 to 32: sign timestamp.body with
HMAC-SHA256 under the secret and prepend sha256= to the lowercase hex.
Byte 46 is the dot of the format string. -/
def sign_payload (secret : List Nat) (timestamp : Int) (body : List Nat) : List Nat :=
  let data := strBytes (toString timestamp) ++ 46 :: body
  strBytes "sha256=" ++ hexBytes (hmacSha256 secret data)

/-- The subtle crate constant-time equality on byte slices: false at once
on a length mismatch, otherwise the or-accumulated xor of all byte pairs
compared with zero. -/
def ct_eq (a b : List Nat) : Bool :=
  a.length == b.length &&
    ((a.zip b).foldl (fun acc p => acc ||| (p.1 ^^^ p.2)) 0 == 0)

/-- core/src/auth.rs lines 34 to 37: recompute the expected signature and
compare with the provided one in constant time. -/
def verify_signature (secret : List Nat) (timestamp : Int) (body provided : List Nat) : Bool :=
  ct_eq (sign_payload secret timestamp body) provided

end Herald

/-- Concrete subscription table used to evaluate the fan-out: two active
subscriptions on ch_1, one paused on ch_1, one active on another
channel. -/
def fanOutTable : List Herald.Subscription :=
  [⟨"sub_a", "s1", "ch_1", some "wh_1", .active⟩,
   ⟨"sub_b", "s2", "ch_1", none, .active⟩,
   ⟨"sub_c", "s3", "ch_1", some "wh_3", .paused⟩,
   ⟨"sub_d", "s4", "ch_2", some "wh_4", .active⟩]

theorem Herald.counterInvariant_foldl (l : List Herald.AttemptOutcome)
    (c : Herald.SignalCounts) (h : Herald.counterInvariant c) :
    Herald.counterInvariant (l.foldl Herald.applyCompletedAttempt c) := by
  induction l generalizing c with
  | nil => exact h
  | cons o rest ih =>
    refine ih _ ?_
    cases o <;>
      simp [Herald.counterInvariant, Herald.applyCompletedAttempt,
        Herald.increment_delivery_counts] at h ⊢ <;> omega

theorem Herald.lor_eq_zero_iff (a b : Nat) : a ||| b = 0 ↔ a = 0 ∧ b = 0 := by
  constructor
  · intro h
    constructor
    · refine Nat.eq_of_testBit_eq fun i => ?_
      have hb := congrArg (fun n => Nat.testBit n i) h
      simp [Nat.testBit_lor] at hb
      simp [hb.1]
    · refine Nat.eq_of_testBit_eq fun i => ?_
      have hb := congrArg (fun n => Nat.testBit n i) h
      simp [Nat.testBit_lor] at hb
      simp [hb.2]
  · rintro ⟨rfl, rfl⟩
    rfl

theorem Herald.foldl_orx_eq_zero (l : List (Nat × Nat)) (i : Nat) :
    l.foldl (fun acc p => acc ||| (p.1 ^^^ p.2)) i = 0 ↔ i = 0 ∧ ∀ p ∈ l, p.1 = p.2 := by
  induction l generalizing i with
  | nil => simp
  | cons q qs ih =>
    simp only [List.foldl_cons, ih, Herald.lor_eq_zero_iff, Nat.xor_eq_zero, List.mem_cons]
    constructor
    · rintro ⟨⟨hi, hq⟩, hall⟩
      exact ⟨hi, fun p hp => hp.elim (fun h => h ▸ hq) (hall p)⟩
    · rintro ⟨hi, hall⟩
      exact ⟨⟨hi, hall q (Or.inl rfl)⟩, fun p hp => hall p (Or.inr hp)⟩

theorem Herald.eq_iff_length_zip (a b : List Nat) :
    (a.length = b.length ∧ ∀ p ∈ a.zip b, p.1 = p.2) ↔ a = b := by
  induction a generalizing b with
  | nil => cases b <;> simp
  | cons x xs ih =>
    cases b with
    | nil => simp
    | cons y ys =>
      simp only [List.length_cons, List.zip_cons_cons, List.mem_cons, List.cons.injEq]
      constructor
      · rintro ⟨hlen, hall⟩
        have hxy : x = y := hall (x, y) (Or.inl rfl)
        exact ⟨hxy, (ih ys).mp
          ⟨Nat.succ_injective hlen, fun p hp => hall p (Or.inr hp)⟩⟩
      · rintro ⟨rfl, rfl⟩
        refine ⟨rfl, fun p hp => ?_⟩
        rcases hp with h | h
        · rw [h]
        · exact ((ih xs).mpr rfl).2 p h

theorem Herald.ct_eq_eq_true_iff (a b : List Nat) : Herald.ct_eq a b = true ↔ a = b := by
  unfold Herald.ct_eq
  rw [Bool.and_eq_true, beq_iff_eq, beq_iff_eq, Herald.foldl_orx_eq_zero]
  constructor
  · rintro ⟨h1, -, h2⟩
    exact (Herald.eq_iff_length_zip a b).mp ⟨h1, h2⟩
  · rintro rfl
    rcases (Herald.eq_iff_length_zip a a).mpr rfl with ⟨h1, h2⟩
    exact ⟨h1, rfl, h2⟩

/-- C5: each completed attempt adds (delivered +1, failed +0, total +1) on
success and (delivered +0, failed +1, total +1) on failure, on both
transports, and after any sequence of completed attempts starting from the
zero-initialized counters the invariant
delivery_count = delivered_count + failed_count holds. -/
theorem C5_counter_invariant :
    (∀ c : Herald.SignalCounts,
      Herald.applyCompletedAttempt c .webhookSuccess =
        ⟨c.delivered_count + 1, c.failed_count, c.delivery_count + 1⟩ ∧
      Herald.applyCompletedAttempt c .tunnelSuccess =
        ⟨c.delivered_count + 1, c.failed_count, c.delivery_count + 1⟩ ∧
      Herald.applyCompletedAttempt c .webhookFailure =
        ⟨c.delivered_count, c.failed_count + 1, c.delivery_count + 1⟩ ∧
      Herald.applyCompletedAttempt c .tunnelFailure =
        ⟨c.delivered_count, c.failed_count + 1, c.delivery_count + 1⟩) ∧
    ∀ l : List Herald.AttemptOutcome,
      Herald.counterInvariant (l.foldl Herald.applyCompletedAttempt Herald.zeroCounts) := by
  constructor
  · intro c
    refine ⟨?_, ?_, ?_, ?_⟩ <;>
      simp [Herald.applyCompletedAttempt, Herald.increment_delivery_counts]
  · intro l
    exact Herald.counterInvariant_foldl l Herald.zeroCounts rfl

/-- C7: update_failure increments failure_count by exactly one and sets
last_failure_at; update_success resets failure_count to zero and sets
last_success_at; hence after any k failures followed by one success the
failure_count is zero. -/
theorem C7_webhook_success_resets_failures :
    (∀ (w : Herald.Webhook) (t : Int),
      (Herald.update_failure w t).failure_count = w.failure_count + 1 ∧
      (Herald.update_failure w t).last_failure_at = some t ∧
      (Herald.update_success w t).failure_count = 0 ∧
      (Herald.update_success w t).last_success_at = some t) ∧
    ∀ (w : Herald.Webhook) (k : Nat) (t u : Int),
      (Herald.update_success (Herald.iterate_failures w t k) u).failure_count = 0 := by
  exact ⟨fun w t => ⟨rfl, rfl, rfl, rfl⟩, fun w k t u => rfl⟩

/-- C8: in the agent registry, register(A) then register(B) for the same
subscriber makes get return B (last-writer-wins); get after unregister of
a subscriber returns none; and unregister of an id with no entry is a
no-op returning the registry unchanged at every key. -/
theorem C8_registry_last_writer_wins (r : Herald.AgentRegistry)
    (A B : Herald.AgentConnection) (s : String)
    (_hA : A.subscriber_id = s) (hB : B.subscriber_id = s) :
    ((r.register A).register B).get s = some B ∧
    (∀ (r' : Herald.AgentRegistry) (k : String), (r'.unregister k).get k = none) ∧
    (∀ (r' : Herald.AgentRegistry) (k : String), r'.get k = none →
      ∀ x, (r'.unregister k) x = r' x) := by
  refine ⟨?_, ?_, ?_⟩
  · simp [Herald.AgentRegistry.get, Herald.AgentRegistry.register, hB]
  · intro r' k
    simp [Herald.AgentRegistry.get, Herald.AgentRegistry.unregister]
  · intro r' k hk x
    by_cases hx : x = k
    · subst hx
      simpa [Herald.AgentRegistry.unregister] using hk.symm
    · simp [Herald.AgentRegistry.unregister, hx]

/-- C8 witness: last-writer-wins evaluated on two concrete connections of
the same subscriber. -/
theorem C8_registry_last_writer_wins_witness :
    ((Herald.AgentRegistry.new.register ⟨"conn_a", "sub_1", 0, 0⟩).register
        ⟨"conn_b", "sub_1", 1, 5⟩).get "sub_1" = some ⟨"conn_b", "sub_1", 1, 5⟩ :=
  (C8_registry_last_writer_wins Herald.AgentRegistry.new
    ⟨"conn_a", "sub_1", 0, 0⟩ ⟨"conn_b", "sub_1", 1, 5⟩ "sub_1" rfl rfl).1

/-- C10: the teardown of a displaced old session unregisters by
subscriber_id without a connection_id check, so after register(old) then
register(new) for the same subscriber, running the old session teardown
removes the new connection's entry and get returns none. -/
theorem C10_teardown_removes_displacing_connection (r : Herald.AgentRegistry)
    (oldConn newConn : Herald.AgentConnection) (s : String)
    (hOld : oldConn.subscriber_id = s) (hNew : newConn.subscriber_id = s) :
    ((r.register oldConn).register newConn).get s = some newConn ∧
    (Herald.handle_socket_teardown ((r.register oldConn).register newConn)
        oldConn.subscriber_id).get s = none := by
  constructor
  · simp [Herald.AgentRegistry.get, Herald.AgentRegistry.register, hNew]
  · simp [Herald.handle_socket_teardown, Herald.AgentRegistry.get,
      Herald.AgentRegistry.unregister, hOld]

/-- C10 witness: a reconnect displacing the old session, then the old
session closing, evaluated on concrete connections. -/
theorem C10_teardown_removes_displacing_connection_witness :
    (Herald.handle_socket_teardown
        ((Herald.AgentRegistry.new.register ⟨"conn_old", "sub_9", 0, 0⟩).register
          ⟨"conn_new", "sub_9", 1, 7⟩) "sub_9").get "sub_9" = none :=
  (C10_teardown_removes_displacing_connection Herald.AgentRegistry.new
    ⟨"conn_old", "sub_9", 0, 0⟩ ⟨"conn_new", "sub_9", 1, 7⟩ "sub_9" rfl rfl).2

/-- C3: at the failing input (a registered agent whose bounded outbound
channel is full with the receiver still alive) the send the worker
actually performs suspends until capacity frees instead of returning an
immediate failure; the try-send the claim and spec require would return
the immediate failure. -/
theorem C3_worker_send_blocks_on_full_channel :
    Herald.deliver_via_tunnel_send .full = .blocksUntilCapacity ∧
    Herald.deliver_via_tunnel_send .full ≠ .immediateError ∧
    Herald.mpscSend .trySend .full = .immediateError := by
  decide

/-- C2 counterexample: the code returns 21600 seconds for attempt 5, not the
7200 seconds the claim states. The unit tests of delivery.rs agree with the
code (test_retry_policy_max_backoff asserts 21600 at attempt 5). -/
theorem C2_retry_delay_attempt5_is_21600_not_7200 :
    Herald.retry_policy 5 = 21600 ∧ Herald.retry_policy 5 ≠ 7200 := by
  decide

/-- C2 amended: the retry delay sequence is [0, 60, 300, 1800, 7200,
21600, 21600, ...]: attempts 0 to 4 produce the listed delays and every
attempt greater or equal 5 produces 21600 seconds. -/
theorem C2_retry_schedule_amended :
    Herald.retry_policy 0 = 0 ∧ Herald.retry_policy 1 = 60 ∧
    Herald.retry_policy 2 = 300 ∧ Herald.retry_policy 3 = 1800 ∧
    Herald.retry_policy 4 = 7200 ∧
    ∀ n : Nat, 5 ≤ n → Herald.retry_policy n = 21600 := by
  refine ⟨rfl, rfl, rfl, rfl, rfl, ?_⟩
  intro n hn
  match n, hn with
  | (m + 5), _ =>
    match m with
    | 0 => rfl
    | k + 1 => rfl

/-- C2 witness: the amended schedule evaluated at attempt 7. -/
theorem C2_retry_schedule_amended_witness :
    Herald.retry_policy 7 = 21600 :=
  C2_retry_schedule_amended.2.2.2.2.2 7 (by decide)

/-- C1: publishing a signal on a channel with M active subscriptions
enqueues exactly M delivery jobs, one per active subscription, each with
attempt 0 and the subscription's webhook_id, on the lane chosen from the
signal urgency. -/
theorem C1_fan_out_one_job_per_active_subscription
    (table : List Herald.Subscription) (cid sid : String) (u : Herald.SignalUrgency) :
    (Herald.publish_fan_out sid u (Herald.list_active_by_channel table cid)).jobs.length
      = (Herald.list_active_by_channel table cid).length ∧
    (∀ s ∈ Herald.list_active_by_channel table cid,
      s.status = Herald.SubscriptionStatus.active ∧ s.channel_id = cid) ∧
    (∀ (i : Nat) (h : i < (Herald.list_active_by_channel table cid).length),
      (Herald.publish_fan_out sid u (Herald.list_active_by_channel table cid)).jobs[i]? =
        some { signal_id := sid
               subscription_id := ((Herald.list_active_by_channel table cid).get ⟨i, h⟩).id
               webhook_id := ((Herald.list_active_by_channel table cid).get ⟨i, h⟩).webhook_id
               attempt := 0 }) ∧
    (Herald.publish_fan_out sid u (Herald.list_active_by_channel table cid)).lane =
      Herald.queueForUrgency u := by
  refine ⟨?_, ?_, ?_, rfl⟩
  · simp [Herald.publish_fan_out]
  · intro s hs
    have hmem := List.mem_filter.mp hs
    have hp := hmem.2
    simp only [Bool.and_eq_true, beq_iff_eq] at hp
    exact ⟨hp.2, hp.1⟩
  · intro i h
    simp only [Herald.publish_fan_out, List.getElem?_map, List.getElem?_eq_getElem h,
      Option.map_some']
    rfl

/-- C1 witness: the fan-out evaluated on the concrete table: two jobs for
the two active ch_1 subscriptions, the first carrying sub_a and its
webhook, on the high lane. -/
theorem C1_fan_out_one_job_per_active_subscription_witness :
    (Herald.publish_fan_out "sig_1" Herald.SignalUrgency.high
        (Herald.list_active_by_channel fanOutTable "ch_1")).jobs.length =
      (Herald.list_active_by_channel fanOutTable "ch_1").length ∧
    (Herald.publish_fan_out "sig_1" Herald.SignalUrgency.high
        (Herald.list_active_by_channel fanOutTable "ch_1")).jobs[0]? =
      some ⟨"sig_1", "sub_a", some "wh_1", 0⟩ ∧
    (Herald.publish_fan_out "sig_1" Herald.SignalUrgency.high
        (Herald.list_active_by_channel fanOutTable "ch_1")).lane = "delivery-high" := by
  have h := C1_fan_out_one_job_per_active_subscription fanOutTable "ch_1" "sig_1"
    Herald.SignalUrgency.high
  refine ⟨h.1, ?_, h.2.2.2⟩
  have h0 := h.2.2.1 0 (by decide)
  rw [h0]
  decide

/-- C6: a webhook delivery failure with attempt at least 5 creates exactly
one dead-letter entry carrying the payload and a single-element
error_history and schedules no requeue; a failure with attempt below 5
schedules exactly one requeue with attempt + 1 on the lane recomputed from
the signal urgency and creates no dead-letter entry. -/
theorem C6_webhook_failure_dlq_terminal_or_single_requeue
    (sid : String) (u : Herald.SignalUrgency) (subId wid payload did : String)
    (attempt : Int) (sc : Option Int) (msg : String) :
    (5 ≤ attempt →
      (Herald.handle_webhook_failure sid u subId wid payload did attempt sc msg).dlq.length = 1 ∧
      (∀ d ∈ (Herald.handle_webhook_failure sid u subId wid payload did attempt sc msg).dlq,
        d.payload = payload ∧ d.error_history = [⟨attempt, msg, sc⟩] ∧
        d.signal_id = sid ∧ d.subscription_id = subId) ∧
      (Herald.handle_webhook_failure sid u subId wid payload did attempt sc msg).requeue = []) ∧
    (attempt < 5 →
      (Herald.handle_webhook_failure sid u subId wid payload did attempt sc msg).dlq = [] ∧
      (Herald.handle_webhook_failure sid u subId wid payload did attempt sc msg).requeue.length = 1 ∧
      (∀ q ∈ (Herald.handle_webhook_failure sid u subId wid payload did attempt sc msg).requeue,
        q.lane = Herald.queueForUrgency u ∧ q.job.attempt = attempt + 1 ∧
        q.job.signal_id = sid ∧ q.job.subscription_id = subId ∧
        q.job.webhook_id = some wid)) := by
  constructor
  · intro h5
    simp [Herald.handle_webhook_failure, if_pos h5]
  · intro hlt
    have h5 : ¬ (5 : Int) ≤ attempt := by omega
    simp [Herald.handle_webhook_failure, if_neg h5]

/-- C6 witness: the branch outcomes at attempt 5 (one DLQ entry, no
requeue) and attempt 3 (one requeue, no DLQ entry) on concrete
arguments. -/
theorem C6_webhook_failure_dlq_terminal_or_single_requeue_witness :
    (Herald.handle_webhook_failure "sig" .normal "sub" "wh" "p" "del" 5
        (some 500) "HTTP 500").dlq.length = 1 ∧
    (Herald.handle_webhook_failure "sig" .normal "sub" "wh" "p" "del" 5
        (some 500) "HTTP 500").requeue = [] ∧
    (Herald.handle_webhook_failure "sig" .normal "sub" "wh" "p" "del" 3
        (some 500) "HTTP 500").dlq = [] ∧
    (Herald.handle_webhook_failure "sig" .normal "sub" "wh" "p" "del" 3
        (some 500) "HTTP 500").requeue.length = 1 := by
  have hterm := (C6_webhook_failure_dlq_terminal_or_single_requeue "sig" .normal "sub" "wh"
    "p" "del" 5 (some 500) "HTTP 500").1 (by decide)
  have hre := (C6_webhook_failure_dlq_terminal_or_single_requeue "sig" .normal "sub" "wh"
    "p" "del" 3 (some 500) "HTTP 500").2 (by decide)
  exact ⟨hterm.1, hterm.2.2, hre.1, hre.2.1⟩

/-- C9: when the tunnel send fails for a subscription whose webhook_id is
set, allow_retry is false, the handler records the failed delivery and
bumps the failure counters but schedules no requeue and creates no
dead-letter entry, for every attempt number, attempt at least 5
included. -/
theorem C9_tunnel_failure_with_webhook_never_retries_nor_dlqs
    (sid : String) (u : Herald.SignalUrgency) (subId wid payload did : String)
    (attempt : Int) (msg : String) :
    Herald.allow_retry_of (some wid) = false ∧
    (Herald.handle_tunnel_failure sid u subId (some wid) payload did attempt msg
        (Herald.allow_retry_of (some wid))).deliveryMarkedFailed = true ∧
    (Herald.handle_tunnel_failure sid u subId (some wid) payload did attempt msg
        (Herald.allow_retry_of (some wid))).countsDelta = (0, 1, 1) ∧
    (Herald.handle_tunnel_failure sid u subId (some wid) payload did attempt msg
        (Herald.allow_retry_of (some wid))).requeue = [] ∧
    (Herald.handle_tunnel_failure sid u subId (some wid) payload did attempt msg
        (Herald.allow_retry_of (some wid))).dlq = [] := by
  refine ⟨rfl, ?_, ?_, ?_, ?_⟩ <;>
    simp [Herald.handle_tunnel_failure, Herald.allow_retry_of]

/-- C4: verify_signature returns true exactly when the provided signature
equals sign_payload of the same secret, timestamp and body (a provided
string of different length or content yields false), and the round trip
of signing then verifying always succeeds. -/
theorem C4_verify_signature_iff_sign_payload
    (secret : List Nat) (timestamp : Int) (body provided : List Nat) :
    (Herald.verify_signature secret timestamp body provided = true ↔
      provided = Herald.sign_payload secret timestamp body) ∧
    Herald.verify_signature secret timestamp body
      (Herald.sign_payload secret timestamp body) = true := by
  constructor
  · unfold Herald.verify_signature
    rw [Herald.ct_eq_eq_true_iff]
    exact eq_comm
  · unfold Herald.verify_signature
    rw [Herald.ct_eq_eq_true_iff]
